import Mathlib

/-!
Verification of the `fiddy` repository's natural-language specification
against a shallow embedding of its Python source.

Modelling conventions used throughout this file:

* Python `None` and empty strings (both falsy where the source tests
  truthiness) are modelled as `Option.none`; a present, truthy string
  field is `some s`.
* The credential expirations are stored in the source as strings in the
  format `%Y-%m-%d %H:%M:%S %Z%z` and parsed with `strptime` before being
  compared; since the format round-trips a timezone-aware instant, an
  expiration is modelled directly as the instant it denotes, an `Int`
  (seconds since an arbitrary epoch).  Comparisons on parsed datetimes
  are instant comparisons.
* Fallible code returns `Except PyErr α`.
-/

/-- Python exception outcomes that the embedded code can raise. -/
inductive PyErr
  | typeError (msg : String)
  | valueError (msg : String)
  | fileNotFoundError (msg : String)
  deriving Repr, DecidableEq

/-! ## Token Lifecycle Manager: `fiddy/tda/auth.py`, `TdaAuth.get_access_token`

The state consulted by `get_access_token` is `self.credentials`, a dict
whose cached-token fields are the six keys below (the static fields
`consumer_key` and `redirect_uri` are also carried because they enter the
POST payload). -/

/-- The fields of `TdaAuth.credentials` used by `get_access_token`
(`src/fiddy/tda/auth.py`).  `code`, `access_token`, `refresh_token`,
`token_type` are `none` when the dict holds `None` or an empty string
(both falsy in the source's `all([...])` check); the two expirations are
the instants their stored strings denote. -/
structure TdaCredentials where
  consumer_key : String
  redirect_uri : String
  code : Option String
  access_token : Option String
  access_token_expiration : Option Int
  refresh_token : Option String
  refresh_token_expiration : Option Int
  token_type : Option String
  deriving Repr, DecidableEq

/-- The POST payload built by `get_access_token` for the token endpoint
(`auth.py` lines 191-233).  `access_type` and headers are constant in the
source and omitted.  `code` is always present (set at line 200);
`refresh_token` is present exactly when the refresh branch added it. -/
structure TokenPayload where
  grant_type : String
  client_id : String
  redirect_uri : String
  code : Option String
  refresh_token : Option String
  deriving Repr, DecidableEq

/-- What a single `get_access_token` call does up to (and including) the
decision of what to send to the token endpoint:
either it returns the cached `"{token_type} {access_token}"` without any
POST, or it POSTs `payload`; `calledGetCode` records whether the
interactive `get_code` flow ran during the call. -/
inductive TokenStep
  | cached (token_type access_token : String)
  | post (payload : TokenPayload) (calledGetCode : Bool)
  deriving Repr, DecidableEq

/-- Shallow embedding of `TdaAuth.get_access_token`
(`src/fiddy/tda/auth.py` lines 165-233), up to the POST decision:

* line 198: `if not self.credentials['code']: self.get_code()` — when the
  cached code is falsy the interactive flow runs and stores a fresh code
  (modelled by the parameter `freshCode`);
* line 200: `payload['code'] = self.credentials['code']`;
* lines 211-212: the cache branch requires `cache` and all six token
  fields truthy (`code` is truthy here in every case, having just been
  set when it was absent);
* lines 221-226: both expirations strictly in the future → return the
  cached token, no POST;
* lines 228-233: refresh strictly in the future and access strictly in
  the past → switch the payload to the `refresh_token` grant;
* otherwise the payload keeps `grant_type = "authorization_code"` with
  the (possibly stale) stored code. -/
def get_access_token_step (c : TdaCredentials) (cache : Bool) (now : Int)
    (freshCode : String) : TokenStep :=
  let calledGetCode := c.code.isNone
  let code := c.code.getD freshCode
  let basePayload : TokenPayload :=
    { grant_type := "authorization_code"
      client_id := c.consumer_key
      redirect_uri := c.redirect_uri
      code := some code
      refresh_token := none }
  match cache, c.access_token, c.access_token_expiration, c.refresh_token,
      c.refresh_token_expiration, c.token_type with
  | true, some at_, some ate, some rt, some rte, some tt =>
    if rte > now ∧ ate > now then
      .cached tt at_
    else if rte > now ∧ ate < now then
      .post { basePayload with
                grant_type := "refresh_token"
                refresh_token := some rt } calledGetCode
    else
      .post basePayload calledGetCode
  | _, _, _, _, _, _ => .post basePayload calledGetCode

/-- C1: with all six cached token fields present, `cache = True` and
`now` strictly past the refresh-token expiration, `get_access_token`
does NOT run `get_code` (the cached code is truthy, so line 198 skips
it) and POSTs `grant_type = "authorization_code"` carrying the
previously stored authorization code — it does not obtain a fresh one,
contrary to the claim and to the spec's `BothExpired → NoCode` restart. -/
theorem c1_both_expired_reuses_stale_code
    (ck ru cd at_ rt tt : String) (ate rte now : Int) (fresh : String)
    (hrte : rte < now) :
    get_access_token_step
      { consumer_key := ck, redirect_uri := ru, code := some cd,
        access_token := some at_, access_token_expiration := some ate,
        refresh_token := some rt, refresh_token_expiration := some rte,
        token_type := some tt } true now fresh
    = .post { grant_type := "authorization_code", client_id := ck,
              redirect_uri := ru, code := some cd, refresh_token := none }
        false := by
  have h1 : ¬ (rte > now ∧ ate > now) := by
    rintro ⟨h, -⟩; exact absurd hrte (not_lt.mpr h.le)
  have h2 : ¬ (rte > now ∧ ate < now) := by
    rintro ⟨h, -⟩; exact absurd hrte (not_lt.mpr h.le)
  simp [get_access_token_step, h1, h2]

/-- Witness for `c1_both_expired_reuses_stale_code` at a concrete state:
both tokens expired at instant 100, now = 200. -/
theorem c1_both_expired_reuses_stale_code_witness :
    (100 : Int) < 200 ∧
    get_access_token_step
      { consumer_key := "k", redirect_uri := "r", code := some "OLDCODE",
        access_token := some "A", access_token_expiration := some 50,
        refresh_token := some "R", refresh_token_expiration := some 100,
        token_type := some "Bearer" } true 200 "FRESH"
    = .post { grant_type := "authorization_code", client_id := "k",
              redirect_uri := "r", code := some "OLDCODE",
              refresh_token := none } false :=
  ⟨by decide,
   c1_both_expired_reuses_stale_code "k" "r" "OLDCODE" "A" "R" "Bearer"
     50 100 200 "FRESH" (by decide)⟩

/-- C2 counterexample: at the boundary `now = refresh_token_expiration`
(with the access token expired), the claim's range
`access_token_expiration < now ≤ refresh_token_expiration` is satisfied,
yet the source's strict test `refresh_token_expiration > time_now`
(auth.py line 228) fails, so the call falls through to an
`authorization_code` POST instead of the claimed refresh-token grant. -/
theorem c2_refresh_boundary_counterexample :
    (10 : Int) < 20 ∧ (20 : Int) ≤ 20 ∧
    get_access_token_step
      { consumer_key := "k", redirect_uri := "r", code := some "OLDCODE",
        access_token := some "A", access_token_expiration := some 10,
        refresh_token := some "R", refresh_token_expiration := some 20,
        token_type := some "Bearer" } true 20 "FRESH"
    = .post { grant_type := "authorization_code", client_id := "k",
              redirect_uri := "r", code := some "OLDCODE",
              refresh_token := none } false := by
  refine ⟨by decide, by decide, ?_⟩
  simp [get_access_token_step]

/-- C2 (amended): with all six cached fields present, `cache = True` and
`access_token_expiration < now < refresh_token_expiration` (strictly),
`get_access_token` POSTs the `refresh_token` grant carrying the stored
refresh token, and `get_code` is not invoked on that call. -/
theorem c2_refresh_grant_when_access_expired
    (ck ru cd at_ rt tt : String) (ate rte now : Int) (fresh : String)
    (hate : ate < now) (hrte : now < rte) :
    get_access_token_step
      { consumer_key := ck, redirect_uri := ru, code := some cd,
        access_token := some at_, access_token_expiration := some ate,
        refresh_token := some rt, refresh_token_expiration := some rte,
        token_type := some tt } true now fresh
    = .post { grant_type := "refresh_token", client_id := ck,
              redirect_uri := ru, code := some cd,
              refresh_token := some rt } false := by
  have h1 : ¬ (rte > now ∧ ate > now) := by
    rintro ⟨-, h⟩; exact absurd hate (not_lt.mpr h.le)
  have h2 : rte > now ∧ ate < now := ⟨hrte, hate⟩
  simp [get_access_token_step, h1, h2, hate.le]

/-- Witness for `c2_refresh_grant_when_access_expired`:
access expired at 10, refresh expires at 30, now = 20. -/
theorem c2_refresh_grant_when_access_expired_witness :
    (10 : Int) < 20 ∧ (20 : Int) < 30 ∧
    get_access_token_step
      { consumer_key := "k", redirect_uri := "r", code := some "OLDCODE",
        access_token := some "A", access_token_expiration := some 10,
        refresh_token := some "R", refresh_token_expiration := some 30,
        token_type := some "Bearer" } true 20 "FRESH"
    = .post { grant_type := "refresh_token", client_id := "k",
              redirect_uri := "r", code := some "OLDCODE",
              refresh_token := some "R" } false :=
  ⟨by decide, by decide,
   c2_refresh_grant_when_access_expired "k" "r" "OLDCODE" "A" "R" "Bearer"
     10 30 20 "FRESH" (by decide) (by decide)⟩

/-! ## Market Data Client: `fiddy/tda/__init__.py`, `Tda.get_price_history`

Lines 184-201 are a retry loop over the HTTP request.  The loop is
modelled as a function of the stream of status codes the endpoint would
answer with: each request consumes the next status.  The outcome records
how many requests were actually issued (`attempts`) and how many
40-second sleeps ran (`sleeps`). -/

/-- Outcome of the `get_price_history` request loop. -/
inductive HistoryOutcome
  /-- `break` at a 200 response; `r.json()['candles']` is then returned. -/
  | success (attempts sleeps : Nat)
  /-- `raise RequestError('Rate Limit Hit')` — the spec's
  `RateLimitExceeded` (the `fiddy.exceptions` module is not part of the
  snapshot; the exception's identity is taken from the spec). -/
  | rateLimitError (attempts sleeps : Nat)
  /-- `raise RequestError(msg)` at a non-200, non-429 status. -/
  | requestError (attempts sleeps status : Nat)
  /-- model artifact: the status stream ran out (a real server always
  answers, so theorems supply streams long enough). -/
  | noResponse (attempts sleeps : Nat)
  /-- model artifact: the `while` condition became false.  Unreachable
  from `counter = 0` because the `counter == 2` iteration raises. -/
  | loopFellThrough (attempts sleeps : Nat)
  deriving Repr, DecidableEq

/-- Shallow embedding of the loop of `Tda.get_price_history`
(`src/fiddy/tda/__init__.py` lines 184-201):

```
rate_limit_counter = 0
while rate_limit_counter < 3:
    if rate_limit_counter == 2: raise RequestError('Rate Limit Hit')
    r = requests.get(...)
    if r.status_code == 429:
        rate_limit_counter += 1 ; time.sleep(40) ; continue
    elif r.status_code == 200: break
    else: raise RequestError(msg)
```
-/
def price_history_loop (counter : Nat) (statuses : List Nat)
    (attempts sleeps : Nat) : HistoryOutcome :=
  if counter < 3 then
    if counter = 2 then
      .rateLimitError attempts sleeps
    else
      match statuses with
      | [] => .noResponse attempts sleeps
      | s :: rest =>
        if s = 429 then
          price_history_loop (counter + 1) rest (attempts + 1) (sleeps + 1)
        else if s = 200 then
          .success (attempts + 1) sleeps
        else
          .requestError (attempts + 1) sleeps s
  else
    .loopFellThrough attempts sleeps

/-- `Tda.get_price_history`'s request loop, started as the source starts
it (`rate_limit_counter = 0`, no request yet issued). -/
def get_price_history_requests (statuses : List Nat) : HistoryOutcome :=
  price_history_loop 0 statuses 0 0

/-- At `rate_limit_counter = 2` the loop raises before issuing any
request, whatever statuses the endpoint would have answered. -/
theorem price_history_loop_counter_two (st : List Nat) (a s : Nat) :
    price_history_loop 2 st a s = .rateLimitError a s := by
  cases st <;> simp [price_history_loop]

/-- C3 counterexample: if the endpoint would answer 429, 429, 200, the
claim predicts three attempts ending in success; the source instead
raises `RequestError('Rate Limit Hit')` after only two requests (the
`counter == 2` check fires before a third request is issued) — and it
even sleeps 40 s twice, the second sleep being followed by the failure
rather than by a retry. -/
theorem c3_three_attempts_counterexample :
    get_price_history_requests [429, 429, 200] = .rateLimitError 2 2 ∧
    get_price_history_requests [429, 429, 200] ≠ .success 3 2 := by
  constructor
  · rfl
  · decide

/-- C3 (amended): each of the first two HTTP 429 responses causes a
40-second sleep, but the budget is a single retry (2 request attempts in
total): after the second 429 the loop sleeps and then fails with
`RequestError('Rate Limit Hit')` (the spec's `RateLimitExceeded`)
without issuing a third request — whatever the endpoint would have
answered next.  A 200 on the first or second attempt still succeeds. -/
theorem c3_two_attempt_budget (rest : List Nat) :
    get_price_history_requests (429 :: 429 :: rest) = .rateLimitError 2 2 ∧
    get_price_history_requests (429 :: 200 :: rest) = .success 2 1 ∧
    get_price_history_requests (200 :: rest) = .success 1 0 := by
  refine ⟨?_, ?_, ?_⟩ <;>
    simp [get_price_history_requests, price_history_loop,
      price_history_loop_counter_two]

/-! ## Cache Store: `fiddy/helper.py`, `FiddyHelper.save_data` / `load_data`

Python values that flow through the cache helpers. -/

/-- The kinds of `data` passed to `FiddyHelper.save_data`/`load_data`:
a pandas DataFrame (only its row count matters to the embedded logic),
a string-keyed dict, a list, a plain string, a `datetime.date` (the
source stores dates stringified with `str(...)` and re-parses them with
`strptime('%Y-%m-%d')`, a round trip, so the stored value is modelled as
the date itself, a day index), or `None`. -/
inductive PyObj
  | df (rows : Nat)
  | dict (entries : List (String × PyObj))
  | list (items : List PyObj)
  | str (s : String)
  | pydate (day : Int)
  | pynone

/-- Python truthiness for the values above, as tested by `if not data:`
(`helper.py` line 136).  The DataFrame case is never exercised by that
line in the source (DataFrames take the branch for `data_type == 'df'`);
it is modelled as non-emptiness. -/
def truthy : PyObj → Bool
  | .df rows => rows ≠ 0
  | .dict entries => ¬ entries.isEmpty
  | .list items => ¬ items.isEmpty
  | .str s => s ≠ ""
  | .pydate _ => true
  | .pynone => false

/-- `needle` occurs as a contiguous sublist of the second list
(Python's `needle in hay` on strings). -/
def listInfix (needle : List Char) : List Char → Bool
  | [] => needle.isEmpty
  | c :: rest => needle.isPrefixOf (c :: rest) || listInfix needle rest

/-- Python's substring test `needle in hay`. -/
def strContains (hay needle : String) : Bool :=
  listInfix needle.toList hay.toList

/-- Shallow embedding of `FiddyHelper.save_data`
(`src/fiddy/helper.py` lines 100-155), with its parameters bound as
declared there: `save_data(file_, data=None, data_type=None)`.

`.ok w` models the function returning `True`; `w` is the file write it
performed on the way: `some (path, contents)`, or `none` when no branch
wrote anything (the dict/lod branch writes only if `'.json' in file_`,
the df branch only if `'.csv' in file_`; otherwise the function falls
through to `return True` without touching the disk).  The parent-mkdir
side effect is omitted — it creates no data file.

* lines 130-134: `data_type == 'df'` requires a DataFrame (`TypeError`)
  that is non-empty (`ValueError`);
* lines 135-137: every other `data_type` requires truthy data
  (`ValueError`);
* lines 142-150: serialization dispatch, guarded by the extension tests;
* lines 152-153: any other `data_type` raises
  `TypeError(f"Not sure how to save {data_type}")`. -/
def save_data (file_ : String) (data : PyObj) (data_type : Option String) :
    Except PyErr (Option (String × PyObj)) :=
  if data_type = some "df" then
    match data with
    | .df rows =>
      if rows = 0 then .error (.valueError "Provided dataframe is empty")
      else if strContains file_ ".csv" then .ok (some (file_, data))
      else .ok none
    | _ => .error (.typeError "Provided data is not a dataframe")
  else if truthy data = false then
    .error (.valueError "Provided data is empty")
  else if data_type = some "lod" ∨ data_type = some "dict" then
    if strContains file_ ".json" then .ok (some (file_, data))
    else .ok none
  else
    .error (.typeError
      ("Not sure how to save " ++ (data_type.getD "None")))

/-- C7: `save_data`'s validation behaves as claimed (TypeError for a
non-DataFrame under kind `'df'`, ValueError for an empty DataFrame,
ValueError for falsy data under any other kind) — but the claim's
"never silently drops data" part is false: called with kind `'dict'`
and a filename that does not contain `'.json'`, `save_data` returns
`True` (`.ok`) while writing nothing (`none`), silently dropping the
data, contrary to its own docstring
("Returns True - if data is saved successfully"). -/
theorem c7_save_data_silent_drop :
    save_data "data.txt" (.dict [("a", .str "1")]) (some "dict")
      = .ok none ∧
    save_data "d.csv" (.str "x") (some "df")
      = .error (.typeError "Provided data is not a dataframe") ∧
    save_data "d.csv" (.df 0) (some "df")
      = .error (.valueError "Provided dataframe is empty") ∧
    save_data "d.json" (.dict []) (some "dict")
      = .error (.valueError "Provided data is empty") := by
  refine ⟨?_, ?_, ?_, ?_⟩ <;> rfl

/-- A local file store: an association list from path to contents.
`Path(p).exists()` is membership; a write replaces the entry. -/
def fsLookup (fs : List (String × PyObj)) (p : String) : Option PyObj :=
  (fs.find? (fun e => e.1 == p)).map (fun e => e.2)

/-- Whole-file write (the source always rewrites complete files). -/
def fsWrite (fs : List (String × PyObj)) (p : String) (v : PyObj) :
    List (String × PyObj) :=
  (p, v) :: fs.filter (fun e => e.1 != p)

/-- Shallow embedding of `FiddyHelper.load_data`
(`src/fiddy/helper.py` lines 157-197), parameters as declared there:
`load_data(file_, data_type)`.

* lines 180-184: missing file → empty DataFrame for `'df'`, else `None`
  (never an exception for a missing file);
* lines 186-189: `'dict'` reads the file as JSON when `'.json'` is in
  the name (otherwise `data` stays `None`);
* lines 191-193: `'df'` reads CSV when `'.csv'` is in the name (the
  `index_col='Date'` detail of the read is not modelled: the stored
  contents are returned as saved);
* lines 194-195: any other `data_type` raises
  `TypeError(f"Unknown data_type to load: ...")`. -/
def load_data (fs : List (String × PyObj)) (file_ : String)
    (data_type : Option String) : Except PyErr (Option PyObj) :=
  match fsLookup fs file_ with
  | none =>
    if data_type = some "df" then .ok (some (.df 0)) else .ok none
  | some content =>
    if data_type = some "dict" then
      if strContains file_ ".json" then .ok (some content) else .ok none
    else if data_type = some "df" then
      if strContains file_ ".csv" then .ok (some content) else .ok none
    else
      .error (.typeError
        ("Unknown data_type to load: " ++ (data_type.getD "None")))

/-! ## Keyword binding between the cache helpers and their callers

`FiddyHelper.save_data` declares the parameters
`(file_, data=None, data_type=None)` and `FiddyHelper.load_data`
declares `(file_, data_type)` (helper.py lines 100-102 and 158-159).
Every call site in `fiddy/alpaca/__init__.py` and `fiddy/tda/__init__.py`
instead passes the keywords `input_data_type=` / `output_data_type=`
(and, for DataFrame saves, `index=`).  CPython rejects a keyword
argument that matches no declared parameter with
`TypeError: ... got an unexpected keyword argument ...` before the
callee body runs; the binding check below models that. -/

/-- The keyword parameters `FiddyHelper.save_data` accepts. -/
def save_data_params : List String := ["file_", "data", "data_type"]

/-- The keyword parameters `FiddyHelper.load_data` accepts. -/
def load_data_params : List String := ["file_", "data_type"]

/-- A call binds successfully only if every keyword used by the caller
is a declared parameter of the callee (CPython raises `TypeError`
otherwise, before the function body runs). -/
def kwargsAccepted (params kwargs : List String) : Bool :=
  kwargs.all (fun k => params.contains k)

/-- The `TypeError` CPython raises for the first unexpected keyword. -/
def unexpectedKwargErr (fn kw : String) : PyErr :=
  .typeError (fn ++ "() got an unexpected keyword argument " ++ kw)

/-! ## Market Data Client: `fiddy/alpaca/__init__.py`, `Alpaca.get_calendar` -/

/-- Python dict subscript `entries[k]`, as an `Option`. -/
def dictGet (entries : List (String × PyObj)) (k : String) : Option PyObj :=
  (entries.find? (fun e => e.1 == k)).map (fun e => e.2)

/-- Everything one `get_calendar` call does that C6 is about:
how many remote calendar fetches it issued, the cache-file store it
leaves behind, and its result (the calendar list, or the exception the
call raised). -/
structure CalendarRun where
  remoteCalls : Nat
  store : List (String × PyObj)
  result : Except PyErr PyObj

/-- Keywords used by the cache read of `get_calendar`
(`alpaca/__init__.py` lines 50-51). -/
def get_calendar_load_kwargs : List String := ["file_", "output_data_type"]

/-- Keywords used by the cache write of `get_calendar`
(`alpaca/__init__.py` line 80). -/
def get_calendar_save_kwargs : List String := ["file_", "input_data_type", "data"]

/-- Shallow embedding of `Alpaca.get_calendar`
(`src/fiddy/alpaca/__init__.py` lines 41-84).

* `dataDir` is `self.data_dir`; the cache file is
  `f"{self.data_dir}/calendar.json"`;
* `remote` is the calendar the Alpaca endpoint would return
  (`[day._raw for day in self.api.get_calendar()]`);
* `today` is `dt.datetime.now(tz).date()` as a day index;
* lines 49-54: the cache read is wrapped in `try/except Exception`, so
  a `TypeError` from the call leaves `data` at its initial `{}`
  (modelled `none`);
* lines 56-61: a truthy artifact whose `expiration` date is strictly
  after today is served from cache with no remote call (an artifact is
  only ever written by this same function, so it has the
  `{'expiration': ..., 'calendar': ...}` shape);
* lines 66-80: otherwise fetch, build the artifact with
  `expiration = str((now + 7 days).date())`, and hand it to
  `FiddyHelper.save_data` — whose binding is checked first, an
  exception there being unhandled. -/
def get_calendar (dataDir : String) (store : List (String × PyObj))
    (today : Int) (remote : List PyObj) (cache : Bool) : CalendarRun :=
  let file_ := dataDir ++ "/calendar.json"
  let fetchAndSave : CalendarRun :=
    let calendar := PyObj.list remote
    let data := PyObj.dict
      [("expiration", .pydate (today + 7)), ("calendar", calendar)]
    if kwargsAccepted save_data_params get_calendar_save_kwargs then
      match save_data file_ data (some "dict") with
      | .ok (some (p, v)) =>
        { remoteCalls := 1, store := fsWrite store p v, result := .ok calendar }
      | .ok none =>
        { remoteCalls := 1, store := store, result := .ok calendar }
      | .error e =>
        { remoteCalls := 1, store := store, result := .error e }
    else
      { remoteCalls := 1, store := store,
        result := .error (unexpectedKwargErr "save_data" "input_data_type") }
  if cache then
    let data : Option PyObj :=
      if kwargsAccepted load_data_params get_calendar_load_kwargs then
        match load_data store file_ (some "dict") with
        | .ok d => d
        | .error _ => none
      else none
    match data with
    | some (.dict entries) =>
      match dictGet entries "expiration" with
      | some (PyObj.pydate expiration) =>
        if ¬ truthy (PyObj.dict entries) ∨ ¬ (expiration > today) then
          fetchAndSave
        else
          { remoteCalls := 0, store := store,
            result := .ok ((dictGet entries "calendar").getD .pynone) }
      | _ => fetchAndSave
    | _ => fetchAndSave
  else fetchAndSave

/-- C6: the claimed persist-then-serve-from-cache behaviour never
happens.  Every `get_calendar(cache=True)` call — whatever the store
holds and whatever day it is — issues exactly one remote fetch, leaves
the cache store unchanged (nothing is ever persisted, with a +7-day
expiration or any other), and raises `TypeError`: the cache read passes
`output_data_type=` and the cache write passes `input_data_type=`,
keywords `FiddyHelper.load_data`/`save_data` (which accept `data_type`)
reject; the read error is swallowed by the `try/except` (so the cache
is never hit), the write error is unhandled.  In particular a second
call on the same day fetches remotely again instead of reading a cache. -/
theorem c6_calendar_cache_never_works (dataDir : String)
    (store : List (String × PyObj)) (today : Int) (remote : List PyObj) :
    (get_calendar dataDir store today remote true).remoteCalls = 1 ∧
    (get_calendar dataDir store today remote true).store = store ∧
    (get_calendar dataDir store today remote true).result
      = .error (unexpectedKwargErr "save_data" "input_data_type") := by
  have hload : kwargsAccepted load_data_params get_calendar_load_kwargs
      = false := by decide
  have hsave : kwargsAccepted save_data_params get_calendar_save_kwargs
      = false := by decide
  refine ⟨?_, ?_, ?_⟩ <;> simp [get_calendar, hload, hsave]

/-! ## Market Data Client: `fiddy/tda/__init__.py`, `Tda.get_minute_quotes`

The per-business-day body of the loop at lines 300-358 is modelled in
three stages: the pre-fetch check (no-data marker, then cache read), the
zero-candle marker write, and the quote-CSV write with its
current-day guard. -/

/-- What the per-day loop body does before any fetch. -/
inductive MinuteDayStep
  /-- line 313: the `-NODATA` marker exists — `continue`, no cache read
  and no fetch for this day. -/
  | skippedNoData
  /-- lines 318-322: the cached per-day CSV was non-empty — appended,
  `continue`, no fetch. -/
  | usedCachedCsv (rows : Nat)
  /-- fall through to the `get_price_history` fetch (lines 329-333). -/
  | fetch
  /-- an exception ended the whole `get_minute_quotes` run. -/
  | raised (e : PyErr)

/-- Keywords used by the per-day cache read
(`tda/__init__.py` lines 316-317). -/
def minute_quotes_load_kwargs : List String := ["file_", "output_data_type"]

/-- Keywords used by the zero-candle marker write (lines 337-339). -/
def minute_quotes_nodata_kwargs : List String :=
  ["file_", "data", "input_data_type"]

/-- Keywords used by the quote-CSV write (lines 350-353). -/
def minute_quotes_csv_kwargs : List String :=
  ["file_", "data", "input_data_type", "index"]

/-- Shallow embedding of `Tda.get_minute_quotes` lines 309-322: the
`-NODATA` marker short-circuit, then the cache read of the per-day CSV
(whose binding is checked before `load_data` runs; an exception here is
unhandled and ends the run). -/
def minute_day_precheck (store : List (String × PyObj))
    (fileCsv fileNoData : String) : MinuteDayStep :=
  if (fsLookup store fileNoData).isSome then
    .skippedNoData
  else if kwargsAccepted load_data_params minute_quotes_load_kwargs then
    match load_data store fileCsv (some "df") with
    | .ok (some (.df rows)) =>
      if rows ≠ 0 then .usedCachedCsv rows else .fetch
    | .ok _ => .fetch
    | .error e => .raised e
  else
    .raised (unexpectedKwargErr "load_data" "output_data_type")

/-- Shallow embedding of `Tda.get_minute_quotes` lines 336-342: a fetch
that returned zero candles hands `data='NONE'`, `input_data_type='NONE'`
to `FiddyHelper.save_data` to create the marker file.  The result is the
store after the attempt (`.ok`) or the exception that ended the run. -/
def minute_nodata_write (store : List (String × PyObj))
    (fileNoData : String) : Except PyErr (List (String × PyObj)) :=
  if kwargsAccepted save_data_params minute_quotes_nodata_kwargs then
    match save_data fileNoData (.str "NONE") (some "NONE") with
    | .ok (some (p, v)) => .ok (fsWrite store p v)
    | .ok none => .ok store
    | .error e => .error e
  else
    .error (unexpectedKwargErr "save_data" "input_data_type")

/-- Python comparison values for line 348 of `tda/__init__.py`:
`if (date != dt.datetime.now(tz).date):` — the right-hand side has no
call parentheses, so it is the bound method object `datetime.date` of
the `now` instance, not today's date. -/
inductive PyCmpVal
  | dateVal (day : Int)
  | boundMethodDate
  deriving Repr, DecidableEq

/-- The current-day guard of `Tda.get_minute_quotes` line 348, exactly
as written: the day's date compared, with `!=`, against the bound
method `dt.datetime.now(tz).date`.  A `datetime.date` never equals a
method object, so the guard is `True` for every day — today included. -/
def minute_save_guard (date : Int) : Bool :=
  PyCmpVal.dateVal date != PyCmpVal.boundMethodDate

/-- Shallow embedding of `Tda.get_minute_quotes` lines 347-355: for a
day whose fetch returned `rows` candles, persist the day's CSV unless
the line-348 guard skips it.  `.ok` carries the store afterwards;
`.error` the exception that ended the run. -/
def minute_csv_write (store : List (String × PyObj)) (fileCsv : String)
    (date : Int) (rows : Nat) : Except PyErr (List (String × PyObj)) :=
  if minute_save_guard date then
    if kwargsAccepted save_data_params minute_quotes_csv_kwargs then
      match save_data fileCsv (.df rows) (some "df") with
      | .ok (some (p, v)) => .ok (fsWrite store p v)
      | .ok none => .ok store
      | .error e => .error e
    else
      .error (unexpectedKwargErr "save_data" "input_data_type")
  else
    .ok store

/-- C4: the "never persist the current trading day" protection does not
exist in the code.  The line-348 guard compares the day's date with the
bound method `dt.datetime.now(tz).date` (missing call parentheses), so
it is true for every day, today's date included: the code enters the
save branch for the current trading day exactly as for past days.  The
save attempt itself then raises `TypeError` (the call passes the
keywords `input_data_type=` and `index=`, which `save_data` does not
accept), so past completed days are not persisted either — the run
dies instead. -/
theorem c4_current_day_guard_broken (today : Int)
    (store : List (String × PyObj)) (fileCsv : String) (rows : Nat) :
    minute_save_guard today = true ∧
    minute_csv_write store fileCsv today rows
      = .error (unexpectedKwargErr "save_data" "input_data_type") := by
  have hkw : kwargsAccepted save_data_params minute_quotes_csv_kwargs
      = false := by decide
  constructor
  · rfl
  · simp [minute_csv_write, minute_save_guard, hkw]

/-- C5: half of the claim holds and half is impossible.  (1) A day
whose `-NODATA` marker file exists is skipped before any cache read or
fetch, so it is never re-requested on a second run.  (2) But a fetched
day yielding zero candles never gets its marker persisted: the marker
write passes `input_data_type=` (rejected by `save_data`, `TypeError`),
and even under the intended binding `save_data` raises
`TypeError('Not sure how to save NONE')` for the unknown kind `'NONE'` —
either way the run dies with no marker written, so the day would be
fetched again.  (3) Worse, a day with no marker never even reaches its
fetch: the cache read passes `output_data_type=`, an unhandled
`TypeError`. -/
theorem c5_nodata_marker (store : List (String × PyObj))
    (fileCsv fileNoData : String)
    (hmark : (fsLookup store fileNoData).isSome) :
    minute_day_precheck store fileCsv fileNoData = .skippedNoData ∧
    minute_nodata_write store fileNoData
      = .error (unexpectedKwargErr "save_data" "input_data_type") ∧
    save_data fileNoData (.str "NONE") (some "NONE")
      = .error (.typeError "Not sure how to save NONE") ∧
    (∀ store2 fileCsv2 fileNoData2,
      (fsLookup store2 fileNoData2).isNone →
      minute_day_precheck store2 fileCsv2 fileNoData2
        = .raised (unexpectedKwargErr "load_data" "output_data_type")) := by
  have hkw : kwargsAccepted save_data_params minute_quotes_nodata_kwargs
      = false := by decide
  have hlkw : kwargsAccepted load_data_params minute_quotes_load_kwargs
      = false := by decide
  refine ⟨?_, ?_, ?_, ?_⟩
  · simp [minute_day_precheck, hmark]
  · simp [minute_nodata_write, hkw]
  · rfl
  · intro store2 fileCsv2 fileNoData2 hnone
    simp [minute_day_precheck, Option.isNone_iff_eq_none.mp hnone, hlkw]

/-- Witness for `c5_nodata_marker`: a store holding just the marker
file for the day. -/
theorem c5_nodata_marker_witness :
    (fsLookup [("2020-09-16-1minute.csv-NODATA", PyObj.str "NONE")]
      "2020-09-16-1minute.csv-NODATA").isSome = true ∧
    minute_day_precheck [("2020-09-16-1minute.csv-NODATA", PyObj.str "NONE")]
      "2020-09-16-1minute.csv" "2020-09-16-1minute.csv-NODATA"
      = .skippedNoData :=
  ⟨rfl,
   (c5_nodata_marker [("2020-09-16-1minute.csv-NODATA", PyObj.str "NONE")]
      "2020-09-16-1minute.csv" "2020-09-16-1minute.csv-NODATA" rfl).1⟩

/-! ## Market Data Client: `fiddy/alpaca/__init__.py`,
`Alpaca.get_last_closing_date`

All datetimes handled by this function carry the same fixed US/Eastern
`tzinfo` (the calendar entries are built with `tzinfo=tz` in
`get_calendar_dt`, the normalized instants with `tz.localize` /
`replace` of an input already in that zone), so datetime comparison is
field-lexicographic; a datetime is modelled as a calendar day index
plus hour, minute, second (microseconds are always zero on the values
these lines build or receive). -/

/-- A timezone-aware `datetime.datetime` in the fixed zone. -/
structure PyDateTime where
  day : Int
  hour : Nat
  minute : Nat
  second : Nat
  deriving Repr, DecidableEq

/-- Total seconds of a `PyDateTime`, giving the comparison order. -/
def dtToInstant (t : PyDateTime) : Int :=
  ((t.day * 24 + (t.hour : Int)) * 60 + (t.minute : Int)) * 60
    + (t.second : Int)

/-- The `time_` argument of `get_last_closing_date`: either a bare
`datetime.date` or a `datetime.datetime` (the source distinguishes them
with exact `type(...)` checks). -/
inductive PyTimeArg
  | dateObj (day : Int)
  | datetimeObj (t : PyDateTime)
  deriving Repr, DecidableEq

/-- One entry of `Alpaca.get_calendar_dt`: the four instants built at
`alpaca/__init__.py` lines 120-135.  Only the two closes are consulted
by `get_last_closing_date`. -/
structure CalendarDayDt where
  market_open : PyDateTime
  market_close : PyDateTime
  session_open : PyDateTime
  session_close : PyDateTime
  deriving Repr, DecidableEq

/-- Shallow embedding of the normalization step of
`Alpaca.get_last_closing_date` (`alpaca/__init__.py` lines 170-186):

* a bare date becomes 18:00:00 of that day (`extended_hours=False`) or
  23:59:59 (`extended_hours=True`);
* a datetime whose `strftime('%H:%M')` is `'00:00'` (hour and minute
  both zero — seconds are not consulted) has its hour/minute replaced
  by 18:00 (seconds kept, as `replace` does not touch them) or its
  hour/minute/second by 23:59:59;
* any other datetime is left unchanged. -/
def normalize_lookup_time (time_ : PyTimeArg) (extended_hours : Bool) :
    PyDateTime :=
  match time_ with
  | .dateObj d =>
    if extended_hours = false then ⟨d, 18, 0, 0⟩ else ⟨d, 23, 59, 59⟩
  | .datetimeObj t =>
    if t.hour = 0 ∧ t.minute = 0 then
      if extended_hours = false then { t with hour := 18, minute := 0 }
      else { t with hour := 23, minute := 59, second := 59 }
    else t

/-- Shallow embedding of `Alpaca.get_last_closing_date`
(`alpaca/__init__.py` lines 148-197) over a given calendar: normalize
`time_`, keep the entries whose `market_close` (`session_close` when
extended) is strictly before it, take the last (`[-1]` — `none` models
the `IndexError` when no entry qualifies), and return its date. -/
def get_last_closing_date (calendar : List CalendarDayDt)
    (time_ : PyTimeArg) (extended_hours : Bool) : Option Int :=
  let t := normalize_lookup_time time_ extended_hours
  let closing_hours :=
    if extended_hours = false then
      (calendar.filter
        (fun cal => dtToInstant cal.market_close < dtToInstant t)).map
        (fun cal => cal.market_close)
    else
      (calendar.filter
        (fun cal => dtToInstant cal.session_close < dtToInstant t)).map
        (fun cal => cal.session_close)
  (closing_hours.getLast?).map (fun ch => ch.day)

/-- The claim C8 selection, written from the claim text: the latest
calendar entry (last in calendar order) whose `market_close`
(`session_close` when extended) precedes the given instant, as a date. -/
def lastCloseBeforeSpec (calendar : List CalendarDayDt)
    (cutoff : PyDateTime) (extended_hours : Bool) : Option Int :=
  ((calendar.filter (fun cal =>
      dtToInstant (if extended_hours then cal.session_close
        else cal.market_close) < dtToInstant cutoff)).map
    (fun cal => (if extended_hours then cal.session_close
      else cal.market_close).day)).getLast?

/-- `getLast?` commutes with `map`. -/
theorem list_getLast?_map {α β : Type} (f : α → β) (l : List α) :
    (l.map f).getLast? = (l.getLast?).map f := by
  induction l with
  | nil => rfl
  | cons a t ih =>
    cases t with
    | nil => rfl
    | cons b t2 => simpa using ih

/-- C8: a lookup instant falling exactly at midnight of day `d` —
whether given as the datetime `d 00:00:00` or as the bare date `d` — is
normalized to 18:00:00 of `d` when `extended_hours` is false and to
23:59:59 of `d` when it is true, and `get_last_closing_date` then
returns exactly the latest calendar entry whose `market_close`
(`session_close` when extended) precedes that normalized instant. -/
theorem c8_midnight_normalization (calendar : List CalendarDayDt)
    (d : Int) :
    normalize_lookup_time (.datetimeObj ⟨d, 0, 0, 0⟩) false
      = ⟨d, 18, 0, 0⟩ ∧
    normalize_lookup_time (.datetimeObj ⟨d, 0, 0, 0⟩) true
      = ⟨d, 23, 59, 59⟩ ∧
    normalize_lookup_time (.dateObj d) false = ⟨d, 18, 0, 0⟩ ∧
    normalize_lookup_time (.dateObj d) true = ⟨d, 23, 59, 59⟩ ∧
    get_last_closing_date calendar (.datetimeObj ⟨d, 0, 0, 0⟩) false
      = lastCloseBeforeSpec calendar ⟨d, 18, 0, 0⟩ false ∧
    get_last_closing_date calendar (.datetimeObj ⟨d, 0, 0, 0⟩) true
      = lastCloseBeforeSpec calendar ⟨d, 23, 59, 59⟩ true ∧
    get_last_closing_date calendar (.dateObj d) false
      = lastCloseBeforeSpec calendar ⟨d, 18, 0, 0⟩ false ∧
    get_last_closing_date calendar (.dateObj d) true
      = lastCloseBeforeSpec calendar ⟨d, 23, 59, 59⟩ true := by
  refine ⟨rfl, rfl, rfl, rfl, ?_, ?_, ?_, ?_⟩ <;>
    simp [get_last_closing_date, lastCloseBeforeSpec,
      normalize_lookup_time, list_getLast?_map, Function.comp_def]

/-! ## Credential Store: `fiddy/helper.py`,
`FiddyHelper.load_credentials` / `save_credentials` -/

/-- An INI file as `configparser` sees it: sections of key-value
pairs. -/
abbrev IniConfig := List (String × List (String × String))

/-- The filesystem consulted by the credential helpers: path to parsed
INI content. -/
structure CredFS where
  files : List (String × IniConfig)

/-- `Path(file_).exists()`. -/
def credPathExists (fs : CredFS) (file_ : String) : Bool :=
  fs.files.any (fun e => e.1 == file_)

/-- Shallow embedding of `FiddyHelper.load_credentials`
(`src/fiddy/helper.py` lines 17-42): raises `FileNotFoundError` when
the file does not exist, otherwise parses and returns it. -/
def load_credentials (fs : CredFS) (file_ : String) :
    Except PyErr IniConfig :=
  if credPathExists fs file_ then
    .ok (((fs.files.find? (fun e => e.1 == file_)).map (fun e => e.2)).getD [])
  else
    .error (.fileNotFoundError (file_ ++ " does not exist"))

/-- Set one key in a section body (`loaded_credentials[section][key] =
value` for one key). -/
def iniSetKey (kvs : List (String × String)) (kv : String × String) :
    List (String × String) :=
  if kvs.any (fun e => e.1 == kv.1) then
    kvs.map (fun e => if e.1 == kv.1 then kv else e)
  else kvs ++ [kv]

/-- `add_section` if absent (`DuplicateSectionError` swallowed), then
store every given key into the section, leaving other sections and
other keys untouched (`helper.py` lines 53-61). -/
def iniWriteSection (cfg : IniConfig) (sectionName : String)
    (creds : List (String × String)) : IniConfig :=
  let cfg1 := if cfg.any (fun s => s.1 == sectionName) then cfg
    else cfg ++ [(sectionName, [])]
  cfg1.map (fun s =>
    if s.1 == sectionName then (s.1, creds.foldl iniSetKey s.2) else s)

/-- Replace a path's parsed content in the credential filesystem. -/
def credFsWrite (fs : CredFS) (file_ : String) (cfg : IniConfig) : CredFS :=
  ⟨(file_, cfg) :: fs.files.filter (fun e => e.1 != file_)⟩

/-- Shallow embedding of `FiddyHelper.save_credentials`
(`src/fiddy/helper.py` lines 44-66): first loads the existing file via
`load_credentials` — whose `FileNotFoundError` propagates before
anything is opened for writing — then merges the section and rewrites
the file. -/
def save_credentials (fs : CredFS) (file_ sectionName : String)
    (credentials : List (String × String)) : Except PyErr CredFS :=
  match load_credentials fs file_ with
  | .error e => .error e
  | .ok cfg =>
    .ok (credFsWrite fs file_ (iniWriteSection cfg sectionName credentials))

/-- C9: when the credentials file does not exist, `save_credentials`
raises `FileNotFoundError` (propagated from its initial
`load_credentials` call) and performs no write — in particular it never
creates the file, so a successful save requires the file to already
exist. -/
theorem c9_save_credentials_requires_file (fs : CredFS)
    (file_ sectionName : String) (credentials : List (String × String))
    (habsent : credPathExists fs file_ = false) :
    save_credentials fs file_ sectionName credentials
      = .error (.fileNotFoundError (file_ ++ " does not exist")) := by
  simp [save_credentials, load_credentials, habsent]

/-- Witness for `c9_save_credentials_requires_file` on an empty
filesystem. -/
theorem c9_save_credentials_requires_file_witness :
    credPathExists ⟨[]⟩ "/root/.fiddy.ini" = false ∧
    save_credentials ⟨[]⟩ "/root/.fiddy.ini" "TdaAmeritrade" [("a", "b")]
      = .error (.fileNotFoundError "/root/.fiddy.ini does not exist") :=
  ⟨rfl, c9_save_credentials_requires_file ⟨[]⟩ "/root/.fiddy.ini"
    "TdaAmeritrade" [("a", "b")] rfl⟩

/-! ## Logger factory: `fiddy/logger.py`, `logger` -/

/-- A `logging.Logger` as this repository observes it: its
process-registry identity and the levels of its attached handlers
(each call that configures a logger attaches a file handler and a
console handler at the same level). -/
structure LoggerObj where
  id : Nat
  handlers : List Nat
  deriving Repr, DecidableEq

/-- The module-global `fiddy_loggers` registry plus the identity supply
of `logging.getLogger`. -/
structure LoggerRegistry where
  nextId : Nat
  regs : List (String × LoggerObj)

/-- The `log_levels` mapping with the clamping of `verbose`
(`logger.py` lines 29-38). -/
def log_levels (verbose : Int) : Nat :=
  let v := if verbose > 3 then 3 else if verbose < 0 then 0 else verbose
  if v = 3 then 10 else if v = 2 then 20 else if v = 1 then 30 else 40

/-- Shallow embedding of the `logger` factory
(`src/fiddy/logger.py` lines 7-63): if `fiddy_loggers` already holds
`name`, return the stored logger unchanged (lines 41-42) — the
`log_file` and `verbose` arguments are ignored; otherwise configure a
new logger with a file handler and a console handler at the mapped
level, register and return it. -/
def logger (st : LoggerRegistry) (name : String) (log_file : String)
    (verbose : Int) : LoggerRegistry × LoggerObj :=
  match st.regs.find? (fun e => e.1 == name) with
  | some e => (st, e.2)
  | none =>
    let lvl := log_levels verbose
    let obj : LoggerObj := ⟨st.nextId, [lvl, lvl]⟩
    (⟨st.nextId + 1, st.regs ++ [(name, obj)]⟩, obj)

/-- C10: the logger factory is idempotent per name.  Whatever the
registry state, after a first `logger(name, log_file, verbose)` call a
second call with the same `name` — and any `log_file` and `verbose` —
returns the very logger object the first call returned and leaves the
registry (hence that logger's attached handlers) unchanged. -/
theorem c10_logger_idempotent (st : LoggerRegistry)
    (name log_file log_file2 : String) (verbose verbose2 : Int) :
    (logger (logger st name log_file verbose).1 name log_file2 verbose2).2
      = (logger st name log_file verbose).2 ∧
    (logger (logger st name log_file verbose).1 name log_file2 verbose2).1
      = (logger st name log_file verbose).1 := by
  cases h : st.regs.find? (fun e => e.1 == name) with
  | some e => simp [logger, h]
  | none =>
    simp [logger, h, List.find?_append]
